import Mathlib

/-!
Verification of the echo-server real-time profanity-detection pipeline.

Shallow embedding of the WebSocket audio pipeline of `src/main_old.py`
(constants, buffer management, window extraction, voice-activity gating,
profanity matching) and of `src/services/profanity_service.py`.

Modelling conventions:
* Python floats are modelled by `ℚ`; the literals `0.02`, `0.8`, `32768.0`
  are modelled by the rationals they denote (`1/50`, `4/5`, `32768`).
* Python strings are modelled by `List Char`; `str.lower()` by
  `List.map Char.toLower` (identity on Hangul, as in Python), the
  `in` substring test by `List.IsInfix`, and `str.strip()` emptiness by
  "every character is whitespace".
* Python byte strings are `List Nat` (each entry one byte).
* A Python dict whose key may be absent (the `patterns` key of the
  profanity detector early return) is modelled with an `Option` field.
* Raised exceptions are modelled with `Except` / explicit outcome types.
-/

namespace EchoServer

/-- Constant `buffer_size = 24000` — analysis-window length (main_old.py line 49). -/
def buffer_size : Nat := 24000

/-- Constant `max_buffer_length = 48000` — accumulator hard cap (main_old.py line 52). -/
def max_buffer_length : Nat := 48000

/-- Default `sensitivity_level = 2` (main_old.py line 47). -/
def sensitivity_level : Nat := 2

/-- Catalog `PROFANITY_PATTERNS` tier lists (main_old.py lines 37-41, identical in
profanity_service.py lines 4-8).  Tiers other than 1..3 give `[]`, as
`dict.get(level, [])` does. -/
def PROFANITY_PATTERNS (level : Nat) : List (List Char) :=
  match level with
  | 1 => [['씨','발'], ['시','발'], ['병','신'], ['좆'], ['썅'],
          ['개','새','끼'], ['씨','팔'], ['시','팔']]
  | 2 => [['새','끼'], ['지','랄'], ['엿'], ['개','놈'], ['개','년'],
          ['아','가','리'], ['ㅗ'], ['ㅅ','ㅂ'], ['짜','증'],
          ['멍','청'], ['멍','청','이'], ['바','보']]
  | 3 => [['미','친'], ['빡','치'], ['꺼','져'], ['닥','쳐'], ['ㅄ'],
          ['ㅆ','ㅂ'], ['개'], ['죽','어'], ['등','신'], ['또','라','이']]
  | _ => []

/-- Function `get_profanity_patterns` (main_old.py lines 77-84; same logic as
`ProfanityService.get_patterns`, profanity_service.py lines 15-22):
concatenates the tier lists for levels `1 .. sensitivity`. -/
def get_profanity_patterns (sensitivity : Nat) : List (List Char) :=
  ((List.range' 1 sensitivity).map PROFANITY_PATTERNS).flatten

/-- Python `str.lower()` on the text, modelled characterwise. -/
def lowerStr (t : List Char) : List Char := t.map Char.toLower

/-- Python `not text.strip()` — true iff the text is empty or whitespace-only. -/
def isBlank (t : List Char) : Bool := t.all (fun c => c.isWhitespace)

/-- Result dictionary of the profanity detector.  `patterns` is an `Option`
because the whitespace early return of the source omits the `"patterns"`
key entirely. -/
structure DetectResult where
  detected : Bool
  pattern : Option (List Char)
  patterns : Option (List (List Char))
  confidence : ℚ
  text : List Char
  deriving DecidableEq, Repr

/-- Function `detect_profanity_from_text` (main_old.py lines 166-186; identical logic
in `ProfanityService.detect`, profanity_service.py lines 32-55):
  * `if not text.strip(): return {detected: False, pattern: None,
    confidence: 0, text}` — note: no `patterns` key in this early return;
  * otherwise collect every catalog pattern whose lowercased form occurs as
    a substring of the lowercased text, confidence `0.8` iff that list is
    non-empty. -/
def detect_profanity_from_text (text : List Char) (patterns : List (List Char)) :
    DetectResult :=
  if isBlank text then
    ⟨false, none, none, 0, text⟩
  else
    let textLower := lowerStr text
    let detectedPatterns := patterns.filter (fun p => decide (lowerStr p <:+: textLower))
    ⟨decide (0 < detectedPatterns.length), detectedPatterns.head?,
      some detectedPatterns,
      if 0 < detectedPatterns.length then 4/5 else 0, text⟩

/-- The matches a `DetectResult` reports (empty when the key is absent). -/
def allMatchesOf (r : DetectResult) : List (List Char) := r.patterns.getD []

/-! ## Audio decoding and the window buffer -/

/-- Exceptions the pipeline can raise. -/
inductive PyError where
  | valueError
  deriving DecidableEq, Repr

/-- Twos-complement 16-bit reinterpretation of a value in `0 .. 65535`. -/
def toSigned16 (v : Nat) : Int := if v < 32768 then (v : Int) else (v : Int) - 65536

/-- Little-endian int16 decoding of an even-length byte list, each sample
scaled by `/ 32768.0` (main_old.py line 214). -/
def decodePairs : List Nat → List ℚ
  | lo :: hi :: rest => ((toSigned16 ((lo + 256 * hi) % 65536) : ℚ) / 32768) :: decodePairs rest
  | _ => []

/-- Decoding `np.frombuffer(audio_data, dtype=np.int16).astype(np.float32) / 32768.0`
(main_old.py line 214): raises `ValueError` when the byte length is not a
multiple of the 2-byte element size, otherwise decodes sample pairs. -/
def decodeChunk (bytes : List Nat) : Except PyError (List ℚ) :=
  if bytes.length % 2 = 0 then .ok (decodePairs bytes) else .error .valueError

/-- Buffer append with the capacity cap (main_old.py lines 217-222):
`audio_buffer.extend(audio_chunk)` followed by
`if len(audio_buffer) > max_buffer_length: audio_buffer = audio_buffer[-max_buffer_length:]`. -/
def appendChunk (buf chunk : List ℚ) : List ℚ :=
  let b := buf ++ chunk
  if max_buffer_length < b.length then b.drop (b.length - max_buffer_length) else b

/-- Window extraction step (main_old.py lines 228-231): when
`len(audio_buffer) >= buffer_size`, the window is `audio_buffer[:buffer_size]`
and the buffer becomes `audio_buffer[buffer_size//2:]`; otherwise no window
and the buffer is untouched. -/
def tryExtractWindow (buf : List ℚ) : Option (List ℚ) × List ℚ :=
  if buffer_size ≤ buf.length then
    (some (buf.take buffer_size), buf.drop (buffer_size / 2))
  else (none, buf)

/-- Energy `np.mean(np.abs(w))` over a sample list.  For the empty list the `ℚ` convention
`x / 0 = 0` coincides with the `if len > 0 else 0` guard of line 225. -/
def meanAbs (w : List ℚ) : ℚ := (w.map (fun x => |x|)).sum / (w.length : ℚ)

/-! ## Per-window processing (gate → STT → match → persist → emit) -/

/-- The JSON messages the endpoint sends for one analysed window
(main_old.py lines 258-294), one constructor per response shape. -/
inductive OutMsg where
  /-- lines 258-267: profanity detected. -/
  | detectedMsg (text : List Char) (pattern : Option (List Char))
      (patterns : List (List Char)) (confidence : ℚ) (energy : ℚ)
  /-- lines 270-276: transcribed but clean. -/
  | clean (text : List Char) (energy : ℚ)
  /-- lines 279-285: STT returned empty text. -/
  | noSpeech (energy : ℚ)
  /-- lines 288-294: energy below the gate threshold. -/
  | noActivity (energy : ℚ)
  /-- A generic error message; the source never constructs one, the
  constructor exists so that claims about error messages are statable. -/
  | genericError (reason : List Char)
  deriving DecidableEq, Repr

/-- Row inserted into the `detections` table (main_old.py lines 248-254). -/
structure DetectionRow where
  text : List Char
  pattern : Option (List Char)
  patterns : List (List Char)
  confidence : ℚ
  audio_level : ℚ
  deriving DecidableEq, Repr

/-- Outcome of processing one extracted window. -/
structure WindowResult where
  msg : OutMsg
  sttCalled : Bool
  persisted : Option DetectionRow
  deriving DecidableEq, Repr

/-- Gate → STT → match → persist → emit for one extracted window
(main_old.py lines 234-294).  `stt` is the external Whisper collaborator
(already wrapped: on failure it returns empty text, per
`call_whisper_stt`).  The gate is `chunk_energy > 0.02`; `0.02` is the
rational `1/50`. -/
def processWindow (stt : List ℚ → List Char) (patterns : List (List Char))
    (w : List ℚ) : WindowResult :=
  let e := meanAbs w
  if 1/50 < e then
    let text := stt w
    if text.isEmpty then
      ⟨.noSpeech e, true, none⟩
    else
      let r := detect_profanity_from_text text patterns
      if r.detected then
        ⟨.detectedMsg text r.pattern (allMatchesOf r) r.confidence e, true,
          some ⟨text, r.pattern, allMatchesOf r, r.confidence, e⟩⟩
      else
        ⟨.clean text e, true, none⟩
  else
    ⟨.noActivity e, false, none⟩

/-! ## Per-message processing (the body of the receive loop) -/

/-- Result of one iteration of the `while True` receive loop. -/
structure MsgResult where
  buf : List ℚ
  sent : List OutMsg
  persisted : List DetectionRow
  sttCalls : Nat
  deriving DecidableEq, Repr

/-- One iteration of the receive loop for a binary payload
(main_old.py lines 211-294): decode, append (with cap), then — under a
single `if len(audio_buffer) >= buffer_size` — extract one window and
process it.  There is no inner extraction loop in the source. -/
def processMessage (stt : List ℚ → List Char) (patterns : List (List Char))
    (buf : List ℚ) (payload : List Nat) : Except PyError MsgResult :=
  match decodeChunk payload with
  | .error e => .error e
  | .ok chunk =>
    let buf1 := appendChunk buf chunk
    if buffer_size ≤ buf1.length then
      let w := buf1.take buffer_size
      let buf2 := buf1.drop (buffer_size / 2)
      let r := processWindow stt patterns w
      .ok ⟨buf2, [r.msg], r.persisted.toList, if r.sttCalled then 1 else 0⟩
    else
      .ok ⟨buf1, [], [], 0⟩

/-- Number of messages emitted to the client by one loop iteration. -/
def sentCount : Except PyError MsgResult → Nat
  | .ok r => r.sent.length
  | .error _ => 0

/-! ## The session controller -/

/-- Connection-level phase of the session state machine. -/
inductive ConnPhase where
  | streaming
  | rejected
  deriving DecidableEq, Repr

/-- State right after the connection-setup code ran. -/
structure ConnSetup where
  phase : ConnPhase
  /-- Value `some b`: an audio accumulator holding `b` is live for this
  connection; `none`: no accumulator was allocated. -/
  buffer : Option (List ℚ)
  patterns : List (List Char)
  sent : List OutMsg
  deriving DecidableEq, Repr

/-- Connection setup of `websocket_endpoint` (main_old.py lines 200-207):
`await websocket.accept()`, then `audio_buffer = []` (the process-wide
accumulator is (re)initialised for this connection) and
`patterns = get_profanity_patterns(sensitivity_level)`.  The transport
identity is never read: the function ignores `identity`, accepts
unconditionally, sends nothing, and proceeds to the receive loop. -/
def websocketConnect (identity : Option (List Char)) (sensitivity : Nat) :
    ConnSetup :=
  match identity with
  | _ => ⟨.streaming, some [], get_profanity_patterns sensitivity, []⟩

/-- Inbound transport events seen by the receive loop. -/
inductive SessionEvent where
  | bytes (payload : List Nat)
  | disconnect
  deriving DecidableEq, Repr

/-- Outcome of one step of the `try: while True: ... except
WebSocketDisconnect:` block (main_old.py lines 209-297). -/
inductive StepOutcome where
  /-- Loop continues with the new buffer after sending `sent`. -/
  | continues (buf : List ℚ) (sent : List OutMsg)
  /-- Exception `WebSocketDisconnect` was caught (line 296): handler logs and
  returns; nothing is sent. -/
  | closedSilently
  /-- Any other exception: there is no matching `except` clause, so the
  exception propagates out of the handler; `sent` lists the messages sent
  to the client during the failing step. -/
  | crashed (e : PyError) (sent : List OutMsg)
  deriving DecidableEq, Repr

/-- One step of the streaming loop with exception handling (main_old.py
lines 209-297): a disconnect is caught silently; a `PyError` raised while
processing a binary message is uncaught and propagates with no message
sent to the client. -/
def streamingStep (stt : List ℚ → List Char) (patterns : List (List Char))
    (buf : List ℚ) (ev : SessionEvent) : StepOutcome :=
  match ev with
  | .disconnect => .closedSilently
  | .bytes payload =>
    match processMessage stt patterns buf payload with
    | .ok r => .continues r.buf r.sent
    | .error e => .crashed e []

/-! ## The process-wide buffer shared across connections -/

/-- The module-level mutable state of main_old.py: `audio_buffer`
(line 48) is a single process-wide variable, not a per-session one. -/
structure ServerGlobals where
  audio_buffer : List ℚ
  deriving DecidableEq, Repr

/-- Effect of the setup of a new connection on the process state
(main_old.py lines 205-206): `global audio_buffer; audio_buffer = []`
resets the one shared accumulator, whichever session was using it. -/
def connReset (_g : ServerGlobals) : ServerGlobals := ⟨[]⟩

/-- Effect of the binary-message append of one session (main_old.py lines
214-222) on the process state: it reads and writes the shared
`audio_buffer`. -/
def sessionAppend (g : ServerGlobals) (chunk : List ℚ) : ServerGlobals :=
  ⟨appendChunk g.audio_buffer chunk⟩

/-- An STT collaborator that recognises nothing; used to instantiate
universally quantified statements at concrete inputs. -/
def sttEmpty : List ℚ → List Char := fun _ => []

/-! ## Helper lemmas -/

lemma meanAbs_replicate_zero (n : Nat) : meanAbs (List.replicate n (0:ℚ)) = 0 := by
  simp [meanAbs]

lemma appendChunk_length (buf chunk : List ℚ) :
    (appendChunk buf chunk).length = min (buf.length + chunk.length) max_buffer_length := by
  simp only [appendChunk]
  split <;> rename_i h <;>
    simp only [List.length_drop, List.length_append] at h ⊢ <;> omega

lemma appendChunk_of_le (buf chunk : List ℚ)
    (h : buf.length + chunk.length ≤ max_buffer_length) :
    appendChunk buf chunk = buf ++ chunk := by
  unfold appendChunk
  rw [if_neg]
  simp only [List.length_append]
  omega

lemma processWindow_inactive (stt : List ℚ → List Char)
    (patterns : List (List Char)) (w : List ℚ) (h : ¬ 1/50 < meanAbs w) :
    processWindow stt patterns w = ⟨.noActivity (meanAbs w), false, none⟩ := by
  unfold processWindow
  rw [if_neg h]

end EchoServer

namespace EchoServer

/-! ## Claim theorems -/

/-- C4: `tryExtractWindow` returns the first `buffer_size` samples and
removes exactly `buffer_size / 2` samples from the head iff the accumulator
holds at least `buffer_size` samples; shorter accumulators are untouched
and yield nothing.  Appending exactly `buffer_size` samples to an empty
buffer yields exactly one window on the next extraction, leaving
`buffer_size - buffer_size / 2` samples, and no second window. -/
theorem C4_tryExtractWindow_spec :
    ∀ buf : List ℚ,
      (buffer_size ≤ buf.length →
        tryExtractWindow buf =
          (some (buf.take buffer_size), buf.drop (buffer_size / 2)) ∧
        (buf.take buffer_size).length = buffer_size ∧
        (buf.drop (buffer_size / 2)).length = buf.length - buffer_size / 2) ∧
      (buf.length < buffer_size → tryExtractWindow buf = (none, buf)) ∧
      (∀ c : List ℚ, c.length = buffer_size →
        tryExtractWindow (appendChunk [] c) =
          (some c, c.drop (buffer_size / 2)) ∧
        (c.drop (buffer_size / 2)).length = buffer_size - buffer_size / 2 ∧
        (tryExtractWindow (c.drop (buffer_size / 2))).1 = none) := by
  intro buf
  refine ⟨fun h => ?_, fun h => ?_, fun c hc => ?_⟩
  · refine ⟨by rw [tryExtractWindow, if_pos h], ?_, ?_⟩
    · rw [List.length_take]; omega
    · rw [List.length_drop]
  · rw [tryExtractWindow, if_neg (by omega)]
  · have happ : appendChunk [] c = c := by
      have := appendChunk_of_le [] c
        (by rw [hc]; norm_num [buffer_size, max_buffer_length])
      simpa using this
    have htake : c.take buffer_size = c := by
      rw [← hc, List.take_length]
    have hdroplen : (c.drop (buffer_size / 2)).length = buffer_size - buffer_size / 2 := by
      rw [List.length_drop, hc]
    refine ⟨?_, hdroplen, ?_⟩
    · rw [happ, tryExtractWindow, if_pos (by omega), htake]
    · rw [tryExtractWindow, if_neg (by rw [hdroplen]; norm_num [buffer_size])]

/-- Witness for C4 at the concrete boundary input of the claim: a fresh
buffer receiving exactly 24000 samples yields one window and keeps 12000
samples, with no second window available. -/
theorem C4_witness :
    tryExtractWindow (appendChunk [] (List.replicate 24000 (0:ℚ))) =
      (some (List.replicate 24000 0), List.replicate 12000 0) ∧
    (List.replicate 12000 (0:ℚ)).length = 24000 - 12000 ∧
    (tryExtractWindow (List.replicate 12000 (0:ℚ))).1 = none := by
  have h := (C4_tryExtractWindow_spec (List.replicate 24000 (0:ℚ))).2.2
    (List.replicate 24000 (0:ℚ)) (by rw [List.length_replicate]; rfl)
  have hdrop : (List.replicate 24000 (0:ℚ)).drop (buffer_size / 2) =
      List.replicate 12000 0 := by
    rw [List.drop_replicate]; norm_num [buffer_size]
  obtain ⟨h1, _, h3⟩ := h
  rw [hdrop] at h1 h3
  exact ⟨h1, by rw [List.length_replicate], h3⟩

/-- C5: after any append the accumulator length never exceeds the
48000-sample cap; the result is a suffix of `buf ++ chunk` (the most recent
samples, oldest discarded first) of length `min (total) cap`, and when the
total fits under the cap nothing is discarded. -/
theorem C5_append_cap :
    ∀ buf chunk : List ℚ,
      (appendChunk buf chunk).length ≤ max_buffer_length ∧
      (appendChunk buf chunk).length =
        min (buf.length + chunk.length) max_buffer_length ∧
      appendChunk buf chunk <:+ buf ++ chunk ∧
      (buf.length + chunk.length ≤ max_buffer_length →
        appendChunk buf chunk = buf ++ chunk) := by
  intro buf chunk
  refine ⟨?_, appendChunk_length buf chunk, ?_, appendChunk_of_le buf chunk⟩
  · rw [appendChunk_length]; omega
  · unfold appendChunk
    by_cases h : max_buffer_length < (buf ++ chunk).length
    · rw [if_pos h]; exact List.drop_suffix _ _
    · rw [if_neg h]

/-- Witness for C5: a 48000-sample buffer plus one more sample is truncated
back to exactly 48000 samples, dropping the oldest sample. -/
theorem C5_witness :
    (appendChunk (List.replicate 48000 (0:ℚ)) [1]).length = 48000 ∧
    appendChunk (List.replicate 48000 (0:ℚ)) [1] <:+
      List.replicate 48000 (0:ℚ) ++ [1] ∧
    appendChunk [] ([1] : List ℚ) = [1] := by
  obtain ⟨_, h2, h3, _⟩ := C5_append_cap (List.replicate 48000 (0:ℚ)) [1]
  refine ⟨?_, h3, ?_⟩
  · rw [h2, List.length_replicate]; rfl
  · have := (C5_append_cap [] ([1] : List ℚ)).2.2.2
      (by rw [List.length_nil, List.length_cons, List.length_nil]; norm_num [max_buffer_length])
    rw [List.nil_append] at this
    exact this

/-- C6: the window is transcribed (the STT collaborator is called) iff
its energy — the mean absolute sample value `meanAbs` — exceeds the fixed
threshold `0.02 = 1/50`; a window at or below the threshold yields the
no-activity result with no STT call; an all-zero window has energy exactly
`0` and is inactive. -/
theorem C6_gate :
    ∀ (stt : List ℚ → List Char) (patterns : List (List Char)) (w : List ℚ),
      ((processWindow stt patterns w).sttCalled = true ↔ 1/50 < meanAbs w) ∧
      (¬ 1/50 < meanAbs w →
        processWindow stt patterns w = ⟨.noActivity (meanAbs w), false, none⟩) ∧
      (∀ n : Nat, meanAbs (List.replicate n (0:ℚ)) = 0) ∧
      (∀ n : Nat,
        (processWindow stt patterns (List.replicate n (0:ℚ))).sttCalled = false) := by
  intro stt patterns w
  have hcall : ∀ v : List ℚ,
      ((processWindow stt patterns v).sttCalled = true ↔ 1/50 < meanAbs v) := by
    intro v
    unfold processWindow
    by_cases h : 1/50 < meanAbs v
    · rw [if_pos h]
      constructor
      · intro _; exact h
      · intro _
        dsimp only
        split
        · rfl
        · split <;> rfl
    · rw [if_neg h]
      simp only [iff_false, h]
      exact fun hfalse => absurd hfalse (by simp)
  refine ⟨hcall w, processWindow_inactive stt patterns w, meanAbs_replicate_zero, ?_⟩
  intro n
  have h0 : ¬ (1:ℚ)/50 < meanAbs (List.replicate n (0:ℚ)) := by
    rw [meanAbs_replicate_zero]; norm_num
  rw [processWindow_inactive stt patterns _ h0]

/-- Witness for C6 at the all-zero 1.5-second window: energy `0`, gate
closed, no STT call, no-activity message emitted. -/
theorem C6_witness :
    meanAbs (List.replicate 24000 (0:ℚ)) = 0 ∧
    processWindow sttEmpty (get_profanity_patterns 2)
        (List.replicate 24000 (0:ℚ)) =
      ⟨.noActivity 0, false, none⟩ ∧
    (processWindow sttEmpty (get_profanity_patterns 2)
        (List.replicate 24000 (0:ℚ))).sttCalled = false := by
  obtain ⟨_, h2, h3, h4⟩ :=
    C6_gate sttEmpty (get_profanity_patterns 2) (List.replicate 24000 (0:ℚ))
  have hz := h3 24000
  have hin := h2 (by rw [hz]; norm_num)
  rw [hz] at hin
  exact ⟨hz, hin, h4 24000⟩

/-- C7: the confidence of the detector is exactly `0.8 = 4/5` when the match
list is non-empty and exactly `0` when it is empty (no other value occurs),
and the detected flag is true iff the match list is non-empty. -/
theorem C7_binary_confidence :
    ∀ (text : List Char) (patterns : List (List Char)),
      ((detect_profanity_from_text text patterns).confidence = 4/5 ∨
        (detect_profanity_from_text text patterns).confidence = 0) ∧
      ((detect_profanity_from_text text patterns).confidence = 4/5 ↔
        allMatchesOf (detect_profanity_from_text text patterns) ≠ []) ∧
      ((detect_profanity_from_text text patterns).detected = true ↔
        allMatchesOf (detect_profanity_from_text text patterns) ≠ []) := by
  intro text patterns
  unfold detect_profanity_from_text
  by_cases hb : isBlank text
  · rw [if_pos hb]
    refine ⟨Or.inr rfl, ?_, ?_⟩
    · simp only [allMatchesOf, Option.getD_none, ne_eq, not_true_eq_false, iff_false]
      norm_num
    · simp [allMatchesOf]
  · rw [if_neg hb]
    simp only [allMatchesOf, Option.getD_some]
    constructor
    · by_cases hl : 0 < (List.filter
          (fun p => decide (lowerStr p <:+: lowerStr text)) patterns).length
      · exact Or.inl (by rw [if_pos hl])
      · exact Or.inr (by rw [if_neg hl])
    constructor
    · constructor
      · intro h hnil
        rw [hnil] at h
        norm_num at h
      · intro h
        rw [if_pos (List.length_pos.mpr h)]
    · constructor
      · intro h hnil
        rw [hnil] at h
        norm_num at h
      · intro h
        simp only [decide_eq_true_eq]
        exact List.length_pos.mpr h

/-- Witness for C7: on the text `"짜증"` with the default tier-2 pattern
set the detector reports a non-empty match list, confidence `4/5`, and
`detected = true`. -/
theorem C7_witness :
    allMatchesOf (detect_profanity_from_text ['짜','증']
        (get_profanity_patterns 2)) ≠ [] ∧
    (detect_profanity_from_text ['짜','증']
        (get_profanity_patterns 2)).confidence = 4/5 ∧
    (detect_profanity_from_text ['짜','증']
        (get_profanity_patterns 2)).detected = true := by
  have hne : allMatchesOf (detect_profanity_from_text ['짜','증']
      (get_profanity_patterns 2)) ≠ [] := by decide
  obtain ⟨_, h2, h3⟩ :=
    C7_binary_confidence ['짜','증'] (get_profanity_patterns 2)
  exact ⟨hne, h2.mpr hne, h3.mpr hne⟩

/-- C8 counterexample: on the whitespace-only text `" "` the early return
of the detector carries no `patterns` key at all (`none`), not the empty list
the claim asserts. -/
theorem C8_counterexample :
    isBlank [' '] = true ∧
    (detect_profanity_from_text [' '] (get_profanity_patterns 2)).patterns = none ∧
    (detect_profanity_from_text [' '] (get_profanity_patterns 2)).patterns ≠
      some [] := by
  decide

/-- C8 amended: for every empty or whitespace-only text the detector
returns `detected = false`, a null first match, confidence `0`, and *omits*
the match-list key entirely (modelled as `none`) instead of returning an
empty list. -/
theorem C8_blank_text :
    ∀ (text : List Char) (patterns : List (List Char)),
      isBlank text = true →
        detect_profanity_from_text text patterns =
          ⟨false, none, none, 0, text⟩ := by
  intro text patterns h
  unfold detect_profanity_from_text
  rw [if_pos h]

/-- Witness for C8 at the concrete whitespace-only input `" "`. -/
theorem C8_witness :
    detect_profanity_from_text [' '] (get_profanity_patterns 2) =
      ⟨false, none, none, 0, [' ']⟩ :=
  C8_blank_text [' '] (get_profanity_patterns 2) (by decide)

lemma mem_patterns_of_tier2 (s : Nat) (hs : 2 ≤ s) (p : List Char)
    (hp : p ∈ PROFANITY_PATTERNS 2) : p ∈ get_profanity_patterns s := by
  unfold get_profanity_patterns
  rw [List.mem_flatten]
  exact ⟨PROFANITY_PATTERNS 2,
    List.mem_map_of_mem _ (by rw [List.mem_range']; exact ⟨1, by omega, by norm_num⟩),
    hp⟩

/-- C10: the tier-2 catalog contains both `"멍청"` and `"멍청이"`, and
matching is substring containment over every catalog entry, so at any
sensitivity level `≥ 2` a text containing `"멍청이"` reports both patterns
in its match list. -/
theorem C10_substring_double_match :
    ∀ s : Nat, 2 ≤ s → ∀ text : List Char,
      ['멍','청','이'] <:+: text →
        ['멍','청'] ∈ allMatchesOf
          (detect_profanity_from_text text (get_profanity_patterns s)) ∧
        ['멍','청','이'] ∈ allMatchesOf
          (detect_profanity_from_text text (get_profanity_patterns s)) := by
  intro s hs text hinf
  have hmem : ('멍' : Char) ∈ text := hinf.sublist.subset (by decide)
  have hblank : ¬ isBlank text = true := by
    intro h
    have hw := List.all_eq_true.mp h '멍' hmem
    simp at hw
  have h1 : lowerStr ['멍','청'] <:+: lowerStr text := by
    have hsub : (['멍','청'] : List Char) <:+: ['멍','청','이'] := by decide
    have ht : (['멍','청'] : List Char) <:+: text := hsub.trans hinf
    exact ht.map Char.toLower
  have h2 : lowerStr ['멍','청','이'] <:+: lowerStr text :=
    hinf.map Char.toLower
  unfold detect_profanity_from_text
  rw [if_neg hblank]
  dsimp only [allMatchesOf, Option.getD_some]
  constructor
  · exact List.mem_filter.mpr
      ⟨mem_patterns_of_tier2 s hs _ (by decide), by rw [decide_eq_true_eq]; exact h1⟩
  · exact List.mem_filter.mpr
      ⟨mem_patterns_of_tier2 s hs _ (by decide), by rw [decide_eq_true_eq]; exact h2⟩

/-- Witness for C10 at sensitivity 2 and the text `"멍청이"` itself: both
`"멍청"` and `"멍청이"` appear in the match list. -/
theorem C10_witness :
    ['멍','청'] ∈ allMatchesOf
      (detect_profanity_from_text ['멍','청','이'] (get_profanity_patterns 2)) ∧
    ['멍','청','이'] ∈ allMatchesOf
      (detect_profanity_from_text ['멍','청','이'] (get_profanity_patterns 2)) :=
  C10_substring_double_match 2 (by norm_num) ['멍','청','이'] (by decide)

lemma decodePairs_replicate_zero (n : Nat) :
    decodePairs (List.replicate (2 * n) 0) = List.replicate n (0:ℚ) := by
  induction n with
  | zero => rfl
  | succ m ih =>
      simp only [show 2 * (m + 1) = 2 * m + 1 + 1 by omega, List.replicate_succ]
      rw [decodePairs, ih]
      norm_num [toSigned16]

lemma decodeChunk_replicate_zero (n : Nat) :
    decodeChunk (List.replicate (2 * n) 0) = .ok (List.replicate n (0:ℚ)) := by
  unfold decodeChunk
  rw [List.length_replicate, if_pos (by omega), decodePairs_replicate_zero]

lemma processMessage_extracts (stt : List ℚ → List Char)
    (patterns : List (List Char)) (buf : List ℚ) (payload : List Nat)
    (chunk : List ℚ) (hdec : decodeChunk payload = .ok chunk)
    (h : buffer_size ≤ (appendChunk buf chunk).length) :
    processMessage stt patterns buf payload =
      .ok ⟨(appendChunk buf chunk).drop (buffer_size / 2),
        [(processWindow stt patterns
            ((appendChunk buf chunk).take buffer_size)).msg],
        (processWindow stt patterns
            ((appendChunk buf chunk).take buffer_size)).persisted.toList,
        if (processWindow stt patterns
            ((appendChunk buf chunk).take buffer_size)).sttCalled
          then 1 else 0⟩ := by
  unfold processMessage
  rw [hdec]
  dsimp only
  rw [if_pos h]

/-- C3 counterexample: a single inbound binary message of 96000 zero
bytes decodes to a 48000-sample chunk, which makes the accumulator exactly
two windows long (`2 * buffer_size`); yet the loop body emits exactly one
window result for it, not two or more, because extraction is guarded by a
single `if`, not looped. -/
theorem C3_counterexample :
    (appendChunk [] (List.replicate 48000 (0:ℚ))).length = 2 * buffer_size ∧
    processMessage sttEmpty (get_profanity_patterns 2) []
        (List.replicate 96000 0) =
      .ok ⟨List.replicate 36000 0, [.noActivity 0], [], 0⟩ ∧
    sentCount (processMessage sttEmpty (get_profanity_patterns 2) []
        (List.replicate 96000 0)) = 1 := by
  have happ : appendChunk [] (List.replicate 48000 (0:ℚ)) =
      List.replicate 48000 0 := by
    have := appendChunk_of_le [] (List.replicate 48000 (0:ℚ))
      (by rw [List.length_nil, List.length_replicate]; norm_num [max_buffer_length])
    rw [List.nil_append] at this
    exact this
  have hlen : (appendChunk [] (List.replicate 48000 (0:ℚ))).length =
      2 * buffer_size := by
    rw [happ, List.length_replicate]; rfl
  have hdec : decodeChunk (List.replicate 96000 0) =
      .ok (List.replicate 48000 (0:ℚ)) := by
    have h := decodeChunk_replicate_zero 48000
    norm_num at h
    exact h
  have htake : (List.replicate 48000 (0:ℚ)).take buffer_size =
      List.replicate 24000 0 := by
    rw [List.take_replicate]; norm_num [buffer_size]
  have hdrop : (List.replicate 48000 (0:ℚ)).drop (buffer_size / 2) =
      List.replicate 36000 0 := by
    rw [List.drop_replicate]; norm_num [buffer_size]
  have hw : processWindow sttEmpty (get_profanity_patterns 2)
      (List.replicate 24000 (0:ℚ)) = ⟨.noActivity 0, false, none⟩ := by
    have h0 : ¬ (1:ℚ)/50 < meanAbs (List.replicate 24000 (0:ℚ)) := by
      rw [meanAbs_replicate_zero]; norm_num
    rw [processWindow_inactive _ _ _ h0, meanAbs_replicate_zero]
  have hproc : processMessage sttEmpty (get_profanity_patterns 2) []
      (List.replicate 96000 0) =
      .ok ⟨List.replicate 36000 0, [.noActivity 0], [], 0⟩ := by
    rw [processMessage_extracts sttEmpty (get_profanity_patterns 2) []
      (List.replicate 96000 0) (List.replicate 48000 (0:ℚ)) hdec
      (by rw [hlen]; omega)]
    rw [happ, htake, hdrop, hw]
    rfl
  exact ⟨hlen, hproc, by rw [hproc]; rfl⟩

/-- C3 amended: each inbound binary message triggers at most one
extract-window cycle — when decoding succeeds, exactly one window result is
emitted iff the post-append accumulator holds at least `buffer_size`
samples, and never two or more. -/
theorem C3_at_most_one_window_per_message :
    ∀ (stt : List ℚ → List Char) (patterns : List (List Char))
      (buf : List ℚ) (payload : List Nat),
      sentCount (processMessage stt patterns buf payload) ≤ 1 ∧
      (∀ chunk, decodeChunk payload = .ok chunk →
        sentCount (processMessage stt patterns buf payload) =
          if buffer_size ≤ (appendChunk buf chunk).length then 1 else 0) := by
  intro stt patterns buf payload
  constructor
  · unfold processMessage
    rcases hdec : decodeChunk payload with e | chunk
    · simp [sentCount]
    · dsimp only
      split
      · simp [sentCount]
      · simp [sentCount]
  · intro chunk hdec
    unfold processMessage
    rw [hdec]
    dsimp only
    split <;> rfl

/-- Witness for C3 (amended) at the empty payload: decoding succeeds with
an empty chunk and no window result is emitted. -/
theorem C3_witness :
    decodeChunk [] = .ok [] ∧
    sentCount (processMessage sttEmpty (get_profanity_patterns 2) [] []) = 0 := by
  refine ⟨rfl, ?_⟩
  have h := (C3_at_most_one_window_per_message sttEmpty
    (get_profanity_patterns 2) [] []).2 [] rfl
  rw [h, if_neg]
  rw [show appendChunk [] ([] : List ℚ) = [] from rfl]
  norm_num [buffer_size]

/-- Required error behaviour under the claim: the outcome crashed after a
generic error message was sent to the client. -/
def sendsGenericError (sent : List OutMsg) : Prop :=
  ∃ reason, OutMsg.genericError reason ∈ sent

/-- C9 counterexample: the malformed binary payload `[0, 0, 0]` (three
bytes, not a multiple of the int16 sample size) makes decoding raise; the
handler has no matching `except` clause, so the session crashes with *no*
message of any kind sent to the client — in particular no generic error
message, contrary to the claim. -/
theorem C9_counterexample :
    streamingStep sttEmpty (get_profanity_patterns 2) [] (.bytes [0, 0, 0]) =
      .crashed .valueError [] ∧
    ¬ ∃ e sent,
      streamingStep sttEmpty (get_profanity_patterns 2) [] (.bytes [0, 0, 0]) =
        .crashed e sent ∧ sendsGenericError sent := by
  have h : streamingStep sttEmpty (get_profanity_patterns 2) []
      (.bytes [0, 0, 0]) = .crashed .valueError [] := rfl
  refine ⟨h, ?_⟩
  rintro ⟨e, sent, heq, reason, hmem⟩
  rw [h] at heq
  injection heq with h1 h2
  rw [← h2] at hmem
  exact absurd hmem (List.not_mem_nil _)

/-- C9 amended: an error raised while processing a binary message in
`Streaming` (such as a malformed payload) is *not* caught: no message is
sent to the client and the exception propagates, terminating the session;
only the disconnect signal of the transport is caught (silently). -/
theorem C9_error_propagates_unreported :
    ∀ (stt : List ℚ → List Char) (patterns : List (List Char)) (buf : List ℚ),
      (∀ (payload : List Nat) (e : PyError),
        decodeChunk payload = .error e →
          streamingStep stt patterns buf (.bytes payload) = .crashed e []) ∧
      streamingStep stt patterns buf .disconnect = .closedSilently := by
  intro stt patterns buf
  constructor
  · intro payload e hdec
    unfold streamingStep
    dsimp only
    unfold processMessage
    rw [hdec]
  · rfl

/-- Witness for C9 (amended) at the one-byte payload `[0]`. -/
theorem C9_witness :
    decodeChunk [0] = .error .valueError ∧
    streamingStep sttEmpty (get_profanity_patterns 2) [] (.bytes [0]) =
      .crashed .valueError [] :=
  ⟨rfl, (C9_error_propagates_unreported sttEmpty
    (get_profanity_patterns 2) []).1 [0] .valueError rfl⟩

/-- C1 (code evaluated at the failing input): a connection whose
transport identity is absent still enters `Streaming`, has the audio
accumulator (re)initialised for it, and is sent no authentication-failure
message — the endpoint never reads the identity and has no rejection
path. -/
theorem C1_unauthenticated_connection_streams :
    (websocketConnect none sensitivity_level).phase = ConnPhase.streaming ∧
    (websocketConnect none sensitivity_level).buffer = some [] ∧
    (websocketConnect none sensitivity_level).sent = [] :=
  ⟨rfl, rfl, rfl⟩

/-- C2 (code evaluated at the failing interleaving): session A appends
100 samples to the accumulator; session B then connects, and the
connection setup of B resets the single process-wide `audio_buffer`, destroying
the accumulator state A was using — the buffer is shared across sessions,
not exclusively owned. -/
theorem C2_shared_buffer_cross_session :
    (sessionAppend ⟨[]⟩ (List.replicate 100 (1:ℚ))).audio_buffer =
      List.replicate 100 1 ∧
    (connReset (sessionAppend ⟨[]⟩ (List.replicate 100 (1:ℚ)))).audio_buffer =
      [] ∧
    (connReset (sessionAppend ⟨[]⟩ (List.replicate 100 (1:ℚ)))).audio_buffer ≠
      (sessionAppend ⟨[]⟩ (List.replicate 100 (1:ℚ))).audio_buffer := by
  have h : (sessionAppend ⟨[]⟩ (List.replicate 100 (1:ℚ))).audio_buffer =
      List.replicate 100 1 := by
    show appendChunk [] (List.replicate 100 (1:ℚ)) = List.replicate 100 1
    have := appendChunk_of_le [] (List.replicate 100 (1:ℚ))
      (by rw [List.length_nil, List.length_replicate]; norm_num [max_buffer_length])
    rw [List.nil_append] at this
    exact this
  refine ⟨h, rfl, ?_⟩
  rw [h]
  intro hc
  have hlen := congrArg List.length hc
  rw [List.length_replicate] at hlen
  norm_num [connReset] at hlen

end EchoServer



